import Mathlib

/-!
Verification of the Telemetry Assembly & Session-Fallback Pipeline of
`src/main.py` (f1-race-replay), as a shallow embedding in Lean 4.

Modelling conventions:
* A pandas telemetry DataFrame becomes `Telemetry`, an association list of
  named channels; `"DRS" in df` becomes `hasChannel`, `df["ch"]` becomes
  `getChannel` / `indexChannel`.
* A float sample is `Sample`: a true numeric value (`num`, modelled as a
  rational), a float NaN (`nan`, on which every comparison is false), or a
  value on which Python `float(...)` raises `TypeError`/`ValueError`
  (`nonNum`).
* Python code that can raise is embedded in `Except Unit`; a caught
  exception corresponds to matching on `.error`.
* The external data source (`load_session`, `get_race_telemetry`,
  `get_quali_telemetry`, lap objects) is out of scope of src/: it is
  modelled by an `Env` record holding the values (or failures) those calls
  would produce in one pipeline run.
-/

set_option autoImplicit false

namespace F1Replay

/-- One telemetry sample as seen by Python `float(value)`:
`num q` is a genuine numeric value (Python `float(value)` succeeds and the
comparison `float(value) >= 10` behaves as `10 ≤ q`); `nan` is a float NaN
(`float(value)` succeeds but `NaN >= 10` is false); `nonNum s` is a value on
which `float(value)` raises `TypeError` or `ValueError`. -/
inductive Sample where
  | num (q : Rat)
  | nan
  | nonNum (s : String)
  deriving DecidableEq

/-- A telemetry channel (a DataFrame column). `numpyDecodeFails` models a
column whose `.to_numpy()` call raises (a decode error); `values` are the
samples in row order. -/
structure Channel where
  values : List Sample
  numpyDecodeFails : Bool
  deriving DecidableEq

/-- `Series.to_numpy()` from `src/main.py` line 30: yields the samples, or
raises (modelled as `.error ()`) when the column cannot be decoded. -/
def Channel.to_numpy (ch : Channel) : Except Unit (List Sample) :=
  if ch.numpyDecodeFails then Except.error () else Except.ok ch.values

/-- A telemetry DataFrame: named channels in column order. -/
abbrev Telemetry := List (String × Channel)

/-- Membership probe `name in df` (checks column names). -/
def hasChannel (t : Telemetry) (name : String) : Bool :=
  (t.find? (fun p => p.1 == name)).isSome

/-- Column lookup, total form: `df[name]` as an `Option`. -/
def getChannel (t : Telemetry) (name : String) : Option Channel :=
  (t.find? (fun p => p.1 == name)).map (fun p => p.2)

/-- Column indexing `df[name]`, raising form: a missing column is a Python
`KeyError`, modelled as `.error ()`. -/
def indexChannel (t : Telemetry) (name : String) : Except Unit Channel :=
  match getChannel t name with
  | some ch => Except.ok ch
  | none => Except.error ()

/-- The loop body of `_lap_has_drs_activation` (lines 34-39): `True` when
`float(value) >= 10` evaluates to true; a `TypeError`/`ValueError` from
`float` is skipped (`continue`), and a NaN comparison is false. -/
def sampleTriggers : Sample → Bool
  | Sample.num q => decide (10 ≤ q)
  | Sample.nan => false
  | Sample.nonNum _ => false

/-- `_lap_has_drs_activation` (lines 25-40), with the member probe and the
indexing merged into one lookup (`hasChannel t "DRS" = (getChannel t "DRS").isSome`
by definition): `False` when the telemetry is `None` or has no `"DRS"` column
or `.to_numpy()` raises; otherwise `True` iff some sample triggers. -/
def lapHasDrsActivation (lap_telemetry : Option Telemetry) : Bool :=
  match lap_telemetry with
  | none => false
  | some t =>
    match getChannel t "DRS" with
    | none => false
    | some ch =>
      match ch.to_numpy with
      | Except.error _ => false
      | Except.ok drs_values => drs_values.any sampleTriggers

/-- `_lap_has_drs_activation` embedded literally, with the presence probe of
line 26 kept separate from the indexing of line 30, and the indexing done
with the raising `indexChannel`: the result is an `Except` so that an
unguarded access to a missing column would surface as `.error`. -/
def lapHasDrsActivationChecked (lap_telemetry : Option Telemetry) :
    Except Unit Bool :=
  match lap_telemetry with
  | none => Except.ok false
  | some t =>
    if hasChannel t "DRS" then
      match indexChannel t "DRS" with
      | Except.error e => Except.error e
      | Except.ok ch =>
        match ch.to_numpy with
        | Except.error _ => Except.ok false
        | Except.ok drs_values => Except.ok (drs_values.any sampleTriggers)
    else Except.ok false

/-- The numeric content of a sample, if any. -/
def numOf : Sample → Option Rat
  | Sample.num q => some q
  | _ => none

/-- `float(series.max())` over a channel (line 134): pandas `max` skips NaN
and takes the maximum of the numeric samples; with no numeric sample the
result is NaN. -/
def seriesFloatMax (ch : Channel) : Sample :=
  match (ch.values.filterMap numOf).max? with
  | some q => Sample.num q
  | none => Sample.nan

theorem hasChannel_eq_isSome (t : Telemetry) (name : String) :
    hasChannel t name = (getChannel t name).isSome := by
  simp [hasChannel, getChannel]

theorem lapHasDrsActivationChecked_eq (lap : Option Telemetry) :
    lapHasDrsActivationChecked lap = Except.ok (lapHasDrsActivation lap) := by
  cases lap with
  | none => rfl
  | some t =>
    cases h : getChannel t "DRS" with
    | none =>
      simp [lapHasDrsActivationChecked, lapHasDrsActivation,
        hasChannel_eq_isSome, indexChannel, h]
    | some ch =>
      simp only [lapHasDrsActivationChecked, lapHasDrsActivation,
        hasChannel_eq_isSome, indexChannel, h, Option.isSome_some, if_pos]
      cases ch.to_numpy <;> rfl

/-- The session types accepted by `main` (`session_type` strings `'R'`,
`'Q'`, `'S'`, `'SQ'`). -/
inductive SessType where
  | R
  | Q
  | S
  | SQ
  deriving DecidableEq

/-- `session.event`: the event descriptor used by `main` (name, location,
country, formatted date, round number). `eventDate` is `none` when
`session.event.get('EventDate')` is falsy, otherwise the already formatted
`strftime('%B %d, %Y')` string. -/
structure EventDesc where
  eventName : String
  location : String
  country : String
  eventDate : Option String
  roundNumber : Int
  deriving DecidableEq

/-- A lap object of the external data source. `get_telemetry` may raise
(`.error ()`) or produce a telemetry value (`None` is kept possible since
`_lap_has_drs_activation` guards against it). -/
structure Lap where
  driver : String
  get_telemetry : Except Unit (Option Telemetry)

/-- A session object of the external data source: its event descriptor, its
lap collection (`session.laps`), the result of `session.laps.pick_fastest()`
(the source's own deterministic fastest-lap choice; `none` when no valid lap
exists), and `session.drivers`. -/
structure Session where
  event : EventDesc
  laps : List Lap
  pick_fastest : Option Lap
  drivers : List String

/-- The value of `get_race_telemetry(session, ...)`: the assembled race
dataset. Frame / status / color payloads are opaque to this pipeline (they
are only passed through to the renderer), so they are modelled by plain
identifiers. -/
structure RaceTelemetry where
  frames : List Nat
  track_statuses : List Nat
  driver_colors : List (String × Nat)
  total_laps : Nat
  deriving DecidableEq

/-- One pipeline run's view of the external data source: what
`load_session(year, round_number, session_type)` produces (or raises), what
`load_session(year, round_number, 'Q')` produces (or raises) when the
fallback asks for it, and the assembled datasets. -/
structure Env where
  primarySession : Except Unit Session
  qualiSession : Except Unit (Option Session)
  raceTelemetry : RaceTelemetry
  qualiTelemetry : Nat

/-- The observable pipeline stages, recorded in order of completion:
`sessionLoaded` after `load_session`, `telemetryAssembled` after
`get_race_telemetry` / `get_quali_telemetry`, `qualiLoadAttempted` when the
fallback calls `load_session(..., 'Q')`, `layoutResolved` when the track
layout block finishes (line 117). -/
inductive Ev where
  | sessionLoaded
  | telemetryAssembled
  | qualiLoadAttempted
  | layoutResolved
  deriving DecidableEq

/-- The `session_info` dict built at lines 126-135. -/
structure SessionInfo where
  event_name : String
  circuit_name : String
  country : String
  year : Int
  round : Int
  date : String
  total_laps : Nat
  circuit_length_m : Option Sample
  deriving DecidableEq

/-- `session_info['circuit_length_m']` (line 134):
`float(example_lap["Distance"].max()) if example_lap is not None and
"Distance" in example_lap else None`, in total form. -/
def circuitLengthM (example_lap : Option Telemetry) : Option Sample :=
  match example_lap with
  | none => none
  | some t =>
    match getChannel t "Distance" with
    | none => none
    | some ch => some (seriesFloatMax ch)

/-- `circuitLengthM` with the presence probe kept separate from a raising
index, mirroring line 134 literally: an unguarded access to a missing
`"Distance"` column would surface as `.error`. -/
def circuitLengthChecked (example_lap : Option Telemetry) :
    Except Unit (Option Sample) :=
  match example_lap with
  | none => Except.ok none
  | some t =>
    if hasChannel t "Distance" then
      match indexChannel t "Distance" with
      | Except.error e => Except.error e
      | Except.ok ch => Except.ok (some (seriesFloatMax ch))
    else Except.ok none

/-- The `session_info` dict (lines 126-135). -/
def mkSessionInfo (year round : Int) (ev : EventDesc) (race : RaceTelemetry)
    (example_lap : Option Telemetry) : SessionInfo :=
  { event_name := ev.eventName
    circuit_name := ev.location
    country := ev.country
    year := year
    round := round
    date := ev.eventDate.getD ""
    total_laps := race.total_laps
    circuit_length_m := circuitLengthM example_lap }

/-- Result of the track-layout block (lines 89-117): the final
`example_lap`, the driver whose lap it is, whether the qualifying fallback
replaced the race lap (the line 112 branch), and the stage events emitted. -/
structure LayoutSel where
  example_lap : Option Telemetry
  layoutDriver : String
  fallback_used : Bool
  events : List Ev

/-- The qualifying-fallback decision (lines 98-115). When the primary lap
shows activation it is kept and no qualifying load is attempted. Otherwise
`load_session(year, round_number, 'Q')` is attempted inside `try`: a raised
load error, a `None` session, an empty lap list, no fastest lap, a raising
`get_telemetry`, or a qualifying lap without activation all keep the
original race lap; only a qualifying fastest lap whose telemetry shows
activation replaces it. -/
def selectLayout (env : Env) (fastest_lap : Lap) (t0 : Option Telemetry) :
    LayoutSel :=
  if lapHasDrsActivation t0 then
    { example_lap := t0, layoutDriver := fastest_lap.driver
      fallback_used := false, events := [] }
  else
    let keep : LayoutSel :=
      { example_lap := t0, layoutDriver := fastest_lap.driver
        fallback_used := false, events := [Ev.qualiLoadAttempted] }
    match env.qualiSession with
    | Except.error _ => keep
    | Except.ok none => keep
    | Except.ok (some quali_session) =>
      if quali_session.laps.length > 0 then
        match quali_session.pick_fastest with
        | none => keep
        | some fastest_quali =>
          match fastest_quali.get_telemetry with
          | Except.error _ => keep
          | Except.ok quali_telemetry =>
            if lapHasDrsActivation quali_telemetry then
              { example_lap := quali_telemetry
                layoutDriver := fastest_quali.driver
                fallback_used := true, events := [Ev.qualiLoadAttempted] }
            else keep
      else keep

/-- What one run of `main` hands onward: `raised` when an uncaught exception
propagates to the caller, `noBundle` when `main` returns early without
producing anything (line 94), `qualiBundle` for the data handed to
`run_qualifying_replay`, `raceBundle` for the data handed to
`run_arcade_replay` (plus the layout bookkeeping of `selectLayout`). -/
inductive MainResult where
  | raised
  | noBundle
  | qualiBundle (title : String) (data : Nat)
  | raceBundle (race : RaceTelemetry) (example_lap : Option Telemetry)
      (layoutDriver : String) (fallback_used : Bool) (info : SessionInfo)
  deriving DecidableEq

/-- `main(year, round_number, ..., session_type)` (lines 43-159): load the
primary session; for `'Q'`/`'SQ'` assemble the qualifying dataset and hand
it off; otherwise assemble the race dataset, pick the fastest lap (early
return when there is none), materialize its telemetry (an exception here is
uncaught), run the layout fallback, build `session_info`, and hand the race
bundle off. The second component is the trace of completed stages. -/
def runMain (env : Env) (year round : Int) (st : SessType) :
    MainResult × List Ev :=
  match env.primarySession with
  | Except.error _ => (MainResult.raised, [])
  | Except.ok session =>
    if st = SessType.Q ∨ st = SessType.SQ then
      (MainResult.qualiBundle
        (session.event.eventName ++ " - " ++
          (if st = SessType.SQ then "Sprint Qualifying" else "Qualifying Results"))
        env.qualiTelemetry,
       [Ev.sessionLoaded, Ev.telemetryAssembled])
    else
      match session.pick_fastest with
      | none => (MainResult.noBundle, [Ev.sessionLoaded, Ev.telemetryAssembled])
      | some fastest_lap =>
        match fastest_lap.get_telemetry with
        | Except.error _ =>
          (MainResult.raised, [Ev.sessionLoaded, Ev.telemetryAssembled])
        | Except.ok t0 =>
          let sel := selectLayout env fastest_lap t0
          (MainResult.raceBundle env.raceTelemetry sel.example_lap
            sel.layoutDriver sel.fallback_used
            (mkSessionInfo year round session.event env.raceTelemetry
              sel.example_lap),
           [Ev.sessionLoaded, Ev.telemetryAssembled] ++ sel.events ++
             [Ev.layoutResolved])

/-! ### Concrete fixtures for witnesses and counterexamples -/

/-- A channel whose `.to_numpy()` succeeds. -/
def chanOf (vs : List Sample) : Channel :=
  { values := vs, numpyDecodeFails := false }

/-- DRS samples `[0, 0, 15, 0]` plus a Distance column: activation present. -/
def telemAct : Telemetry :=
  [("DRS", chanOf [Sample.num 0, Sample.num 0, Sample.num 15, Sample.num 0]),
   ("Distance", chanOf [Sample.num 1200, Sample.num 4800])]

/-- DRS samples `[0, 0, 0, 0]`: no activation. -/
def telemFlat : Telemetry :=
  [("DRS", chanOf [Sample.num 0, Sample.num 0, Sample.num 0, Sample.num 0])]

/-- DRS samples `[0, 9, 0]`: all below the threshold 10. -/
def telemQualiLow : Telemetry :=
  [("DRS", chanOf [Sample.num 0, Sample.num 9, Sample.num 0])]

/-- A qualifying lap's telemetry with activation (a 14 sample). -/
def telemQualiAct : Telemetry :=
  [("DRS", chanOf [Sample.num 0, Sample.num 14, Sample.num 0])]

/-- DRS samples `["x", 12]`: one unparseable sample, one triggering one. -/
def telemX12 : Telemetry :=
  [("DRS", chanOf [Sample.nonNum "x", Sample.num 12])]

/-- DRS samples `["x", "y"]`: only unparseable samples. -/
def telemXY : Telemetry :=
  [("DRS", chanOf [Sample.nonNum "x", Sample.nonNum "y"])]

/-- A DRS column whose `.to_numpy()` raises. -/
def chanBad : Channel := { values := [Sample.num 99], numpyDecodeFails := true }

/-- Telemetry whose DRS column cannot be decoded. -/
def telemBad : Telemetry := [("DRS", chanBad)]

/-- A concrete event descriptor. -/
def evDescEx : EventDesc :=
  { eventName := "Belgian Grand Prix", location := "Spa-Francorchamps"
    country := "Belgium", eventDate := some "July 27, 2025", roundNumber := 13 }

/-- A concrete race-telemetry dataset. -/
def rtEx : RaceTelemetry :=
  { frames := [1, 2, 3], track_statuses := [0]
    driver_colors := [("VER", 1), ("HAM", 2), ("LEC", 3)], total_laps := 44 }

/-- Fastest race lap with activation, driver VER. -/
def lapAct : Lap := { driver := "VER", get_telemetry := Except.ok (some telemAct) }

/-- Fastest race lap without activation, driver PER. -/
def lapFlat : Lap := { driver := "PER", get_telemetry := Except.ok (some telemFlat) }

/-- Qualifying fastest lap with activation, driver LEC. -/
def lapQualiAct : Lap :=
  { driver := "LEC", get_telemetry := Except.ok (some telemQualiAct) }

/-- Qualifying fastest lap below threshold, driver HAM. -/
def lapQualiLow : Lap :=
  { driver := "HAM", get_telemetry := Except.ok (some telemQualiLow) }

/-- Primary session whose fastest lap shows activation. -/
def sessAct : Session :=
  { event := evDescEx, laps := [lapAct], pick_fastest := some lapAct
    drivers := ["VER", "HAM", "LEC"] }

/-- Primary session with no valid lap (`pick_fastest()` is `None`). -/
def sessNoLaps : Session :=
  { event := evDescEx, laps := [], pick_fastest := none, drivers := [] }

/-- Primary session whose fastest lap lacks activation. -/
def sessFlat : Session :=
  { event := evDescEx, laps := [lapFlat], pick_fastest := some lapFlat
    drivers := ["PER", "HAM", "LEC"] }

/-- Qualifying session whose fastest lap shows activation. -/
def sessQualiAct : Session :=
  { event := evDescEx, laps := [lapQualiAct], pick_fastest := some lapQualiAct
    drivers := ["LEC"] }

/-- Qualifying session whose fastest lap stays below threshold. -/
def sessQualiLow : Session :=
  { event := evDescEx, laps := [lapQualiLow], pick_fastest := some lapQualiLow
    drivers := ["HAM"] }

/-- Run where the primary fastest lap shows activation. -/
def envAct : Env :=
  { primarySession := Except.ok sessAct, qualiSession := Except.error ()
    raceTelemetry := rtEx, qualiTelemetry := 7 }

/-- Run where the primary session has no valid lap. -/
def envNoLaps : Env :=
  { primarySession := Except.ok sessNoLaps, qualiSession := Except.error ()
    raceTelemetry := rtEx, qualiTelemetry := 7 }

/-- Run where the fallback finds a qualifying lap with activation. -/
def envFallback : Env :=
  { primarySession := Except.ok sessFlat
    qualiSession := Except.ok (some sessQualiAct)
    raceTelemetry := rtEx, qualiTelemetry := 7 }

/-- Run where the qualifying fastest lap is also below threshold. -/
def envQualiLow : Env :=
  { primarySession := Except.ok sessFlat
    qualiSession := Except.ok (some sessQualiLow)
    raceTelemetry := rtEx, qualiTelemetry := 7 }

/-- Run where the qualifying load itself raises. -/
def envQualiErr : Env :=
  { primarySession := Except.ok sessFlat, qualiSession := Except.error ()
    raceTelemetry := rtEx, qualiTelemetry := 7 }

/-! ### Helper lemmas about `selectLayout` and `runMain` -/

theorem selectLayout_of_activation (env : Env) (fl : Lap) (t0 : Option Telemetry)
    (h : lapHasDrsActivation t0 = true) :
    selectLayout env fl t0 =
      { example_lap := t0, layoutDriver := fl.driver
        fallback_used := false, events := [] } := by
  simp [selectLayout, h]

theorem selectLayout_adopt (env : Env) (fl : Lap) (t0 : Option Telemetry)
    (h : lapHasDrsActivation t0 = false)
    (qs : Session) (hq : env.qualiSession = Except.ok (some qs))
    (hlaps : qs.laps.length > 0)
    (fq : Lap) (hfq : qs.pick_fastest = some fq)
    (qt : Option Telemetry) (hqt : fq.get_telemetry = Except.ok qt)
    (hqact : lapHasDrsActivation qt = true) :
    selectLayout env fl t0 =
      { example_lap := qt, layoutDriver := fq.driver
        fallback_used := true, events := [Ev.qualiLoadAttempted] } := by
  simp [selectLayout, h, hq, hlaps, hfq, hqt, hqact]

theorem selectLayout_keep (env : Env) (fl : Lap) (t0 : Option Telemetry)
    (h : lapHasDrsActivation t0 = false)
    (hfb : env.qualiSession = Except.error () ∨
      env.qualiSession = Except.ok none ∨
      (∃ qs, env.qualiSession = Except.ok (some qs) ∧ ¬ qs.laps.length > 0) ∨
      (∃ qs, env.qualiSession = Except.ok (some qs) ∧ qs.pick_fastest = none) ∨
      (∃ qs fq, env.qualiSession = Except.ok (some qs) ∧
        qs.pick_fastest = some fq ∧ fq.get_telemetry = Except.error ()) ∨
      (∃ qs fq qt, env.qualiSession = Except.ok (some qs) ∧
        qs.pick_fastest = some fq ∧ fq.get_telemetry = Except.ok qt ∧
        lapHasDrsActivation qt = false)) :
    selectLayout env fl t0 =
      { example_lap := t0, layoutDriver := fl.driver
        fallback_used := false, events := [Ev.qualiLoadAttempted] } := by
  rcases hfb with hq | hq | ⟨qs, hq, hl⟩ | ⟨qs, hq, hpf⟩ |
    ⟨qs, fq, hq, hpf, hgt⟩ | ⟨qs, fq, qt, hq, hpf, hgt, hqa⟩
  · simp [selectLayout, h, hq]
  · simp [selectLayout, h, hq]
  · simp [selectLayout, h, hq, hl]
  · by_cases hl : qs.laps.length > 0
    · simp [selectLayout, h, hq, hl, hpf]
    · simp [selectLayout, h, hq, hl]
  · by_cases hl : qs.laps.length > 0
    · simp [selectLayout, h, hq, hl, hpf, hgt]
    · simp [selectLayout, h, hq, hl]
  · by_cases hl : qs.laps.length > 0
    · simp [selectLayout, h, hq, hl, hpf, hgt, hqa]
    · simp [selectLayout, h, hq, hl]

theorem selectLayout_events_of_no_activation (env : Env) (fl : Lap)
    (t0 : Option Telemetry) (h : lapHasDrsActivation t0 = false) :
    (selectLayout env fl t0).events = [Ev.qualiLoadAttempted] := by
  unfold selectLayout
  rw [h]
  simp only [Bool.false_eq_true, if_false]
  cases hq : env.qualiSession with
  | error e => rfl
  | ok oqs =>
    cases oqs with
    | none => rfl
    | some qs =>
      by_cases hl : qs.laps.length > 0
      · simp only [hl, if_true]
        cases hpf : qs.pick_fastest with
        | none => rfl
        | some fq =>
          cases hgt : fq.get_telemetry with
          | error e => simp [hgt]
          | ok qt =>
            by_cases hqa : lapHasDrsActivation qt = true
            · simp [hgt, hqa]
            · rw [Bool.not_eq_true] at hqa
              simp [hgt, hqa]
      · simp [hl]

theorem selectLayout_events (env : Env) (fl : Lap) (t0 : Option Telemetry) :
    (selectLayout env fl t0).events = [] ∨
      (selectLayout env fl t0).events = [Ev.qualiLoadAttempted] := by
  by_cases h : lapHasDrsActivation t0 = true
  · left
    simp [selectLayout, h]
  · right
    rw [Bool.not_eq_true] at h
    exact selectLayout_events_of_no_activation env fl t0 h

theorem circuitLengthChecked_eq (lap : Option Telemetry) :
    circuitLengthChecked lap = Except.ok (circuitLengthM lap) := by
  cases lap with
  | none => rfl
  | some t =>
    cases h : getChannel t "Distance" with
    | none =>
      simp [circuitLengthChecked, circuitLengthM, hasChannel_eq_isSome,
        indexChannel, h]
    | some ch =>
      simp only [circuitLengthChecked, circuitLengthM, hasChannel_eq_isSome,
        indexChannel, h, Option.isSome_some, if_pos]

theorem selectLayout_spec (env : Env) (fl : Lap) (t0 : Option Telemetry) :
    (selectLayout env fl t0).example_lap = t0 ∨
      (lapHasDrsActivation (selectLayout env fl t0).example_lap = true ∧
        (selectLayout env fl t0).fallback_used = true) := by
  by_cases h : lapHasDrsActivation t0 = true
  · left
    simp [selectLayout, h]
  · rw [Bool.not_eq_true] at h
    unfold selectLayout
    rw [h]
    simp only [Bool.false_eq_true, if_false]
    cases hq : env.qualiSession with
    | error e => left; rfl
    | ok oqs =>
      cases oqs with
      | none => left; rfl
      | some qs =>
        by_cases hl : qs.laps.length > 0
        · simp only [hl, if_true]
          cases hpf : qs.pick_fastest with
          | none => left; rfl
          | some fq =>
            cases hgt : fq.get_telemetry with
            | error e => left; simp [hgt]
            | ok qt =>
              by_cases hqa : lapHasDrsActivation qt = true
              · right
                simp [hgt, hqa]
              · rw [Bool.not_eq_true] at hqa
                left
                simp [hgt, hqa]
        · simp [hl]

theorem runMain_race (env : Env) (y r : Int) (st : SessType)
    (hst : st = SessType.R ∨ st = SessType.S)
    (s : Session) (hs : env.primarySession = Except.ok s)
    (fl : Lap) (hf : s.pick_fastest = some fl)
    (t0 : Option Telemetry) (ht : fl.get_telemetry = Except.ok t0) :
    runMain env y r st =
      (MainResult.raceBundle env.raceTelemetry
        (selectLayout env fl t0).example_lap
        (selectLayout env fl t0).layoutDriver
        (selectLayout env fl t0).fallback_used
        (mkSessionInfo y r s.event env.raceTelemetry
          (selectLayout env fl t0).example_lap),
       [Ev.sessionLoaded, Ev.telemetryAssembled] ++
         (selectLayout env fl t0).events ++ [Ev.layoutResolved]) := by
  rcases hst with h | h <;> subst h <;>
    simp [runMain, hs, hf, ht]

theorem runMain_noLaps (env : Env) (y r : Int) (st : SessType)
    (hst : st = SessType.R ∨ st = SessType.S)
    (s : Session) (hs : env.primarySession = Except.ok s)
    (hf : s.pick_fastest = none) :
    runMain env y r st =
      (MainResult.noBundle, [Ev.sessionLoaded, Ev.telemetryAssembled]) := by
  rcases hst with h | h <;> subst h <;> simp [runMain, hs, hf]

theorem runMain_quali (env : Env) (y r : Int) (st : SessType)
    (hst : st = SessType.Q ∨ st = SessType.SQ)
    (s : Session) (hs : env.primarySession = Except.ok s) :
    runMain env y r st =
      (MainResult.qualiBundle
        (s.event.eventName ++ " - " ++
          (if st = SessType.SQ then "Sprint Qualifying" else "Qualifying Results"))
        env.qualiTelemetry,
       [Ev.sessionLoaded, Ev.telemetryAssembled]) := by
  rcases hst with h | h <;> subst h <;> simp [runMain, hs]

/-! ### Claim theorems -/

/-- Claim C1, counterexample: on a concrete primary session whose lap
collection yields no fastest lap, `main` does not raise anything to the
caller (no `NoLapsError` exists in the code) — it logs an error and returns
early with no bundle, so the outcome is `noBundle`, not `raised`. -/
theorem c1_counterexample :
    sessNoLaps.pick_fastest = none
    ∧ (runMain envNoLaps 2025 12 SessType.R).1 = MainResult.noBundle
    ∧ (runMain envNoLaps 2025 12 SessType.R).1 ≠ MainResult.raised :=
  ⟨rfl, rfl, by decide⟩

/-- Claim C1, amended: for every Race/Sprint run whose primary session
yields no fastest lap (zero valid laps), `main` returns early producing no
bundle (no TelemetryBundle, SessionInfo, or TrackLayout), and it does not
raise: the outcome is `noBundle`, never `raised`. -/
theorem c1_theorem (env : Env) (y r : Int) (st : SessType)
    (hst : st = SessType.R ∨ st = SessType.S)
    (s : Session) (hs : env.primarySession = Except.ok s)
    (hnl : s.pick_fastest = none) :
    (runMain env y r st).1 = MainResult.noBundle ∧
      (runMain env y r st).1 ≠ MainResult.raised := by
  have h := runMain_noLaps env y r st hst s hs hnl
  rw [h]
  exact ⟨rfl, by decide⟩

/-- Claim C1, witness: the amended statement instantiated on a concrete
Sprint run with an empty lap collection. -/
theorem c1_witness :
    (runMain envNoLaps 2025 12 SessType.S).1 = MainResult.noBundle ∧
      (runMain envNoLaps 2025 12 SessType.S).1 ≠ MainResult.raised :=
  c1_theorem envNoLaps 2025 12 SessType.S (Or.inr rfl) sessNoLaps rfl rfl

/-- Claim C2, counterexample: on a concrete Race run both the
layout-resolution stage and the telemetry-assembly stage occur, but layout
resolution does NOT precede telemetry assembly — `get_race_telemetry` (line
84) runs before the track-layout block (lines 89-117), so the claimed order
SessionLoaded, LayoutResolved, TelemetryAssembled is violated. -/
theorem c2_counterexample :
    Ev.layoutResolved ∈ (runMain envAct 2025 12 SessType.R).2
    ∧ Ev.telemetryAssembled ∈ (runMain envAct 2025 12 SessType.R).2
    ∧ ¬ ((runMain envAct 2025 12 SessType.R).2.indexOf Ev.layoutResolved
          < (runMain envAct 2025 12 SessType.R).2.indexOf Ev.telemetryAssembled) := by
  decide

/-- Claim C2, amended: for every Race/Sprint run (primary load succeeded,
a fastest lap exists and its telemetry materializes), the stages occur in
the order SessionLoaded, then TelemetryAssembled, then LayoutResolved, with
at most one qualifying-load attempt in between; for every Qualifying /
SprintQualifying run the LayoutResolved stage is skipped entirely and no
secondary session load occurs. -/
theorem c2_theorem (env : Env) (y r : Int) :
    (∀ st, (st = SessType.R ∨ st = SessType.S) →
      ∀ s, env.primarySession = Except.ok s →
      ∀ fl, s.pick_fastest = some fl →
      ∀ t0, fl.get_telemetry = Except.ok t0 →
        (runMain env y r st).2 =
          [Ev.sessionLoaded, Ev.telemetryAssembled] ++
            (selectLayout env fl t0).events ++ [Ev.layoutResolved] ∧
        ((selectLayout env fl t0).events = [] ∨
          (selectLayout env fl t0).events = [Ev.qualiLoadAttempted]))
    ∧ (∀ st, (st = SessType.Q ∨ st = SessType.SQ) →
        Ev.layoutResolved ∉ (runMain env y r st).2 ∧
        Ev.qualiLoadAttempted ∉ (runMain env y r st).2) := by
  constructor
  · intro st hst s hs fl hf t0 ht
    have h := runMain_race env y r st hst s hs fl hf t0 ht
    rw [h]
    exact ⟨rfl, selectLayout_events env fl t0⟩
  · intro st hst
    cases hp : env.primarySession with
    | error e =>
      rcases hst with h | h <;> subst h <;> simp [runMain, hp]
    | ok s =>
      have h := runMain_quali env y r st hst s hp
      rw [h]
      exact ⟨by simp, by simp⟩

/-- Claim C2, witness: the amended statement instantiated on a concrete
Race run (the fallback is not attempted, so the trace is exactly
SessionLoaded, TelemetryAssembled, LayoutResolved) and a concrete
Qualifying run. -/
theorem c2_witness :
    (runMain envAct 2025 12 SessType.R).2 =
      [Ev.sessionLoaded, Ev.telemetryAssembled] ++
        (selectLayout envAct lapAct (some telemAct)).events ++ [Ev.layoutResolved]
    ∧ Ev.layoutResolved ∉ (runMain envAct 2025 12 SessType.Q).2 := by
  have h := c2_theorem envAct 2025 12
  exact ⟨(h.1 SessType.R (Or.inl rfl) sessAct rfl lapAct rfl
      (some telemAct) rfl).1,
    (h.2 SessType.Q (Or.inl rfl)).1⟩

/-- Claim C3: `has_activation` returns false on absent telemetry and on
telemetry with no `"DRS"` channel; and whenever the channel is present and
readable, it returns true iff at least one sample's numeric interpretation
is ≥ the fixed threshold 10, regardless of its position (existential over
the sample list). -/
theorem c3_theorem :
    lapHasDrsActivation none = false
    ∧ (∀ t, hasChannel t "DRS" = false → lapHasDrsActivation (some t) = false)
    ∧ (∀ t ch vs, getChannel t "DRS" = some ch →
        ch.to_numpy = Except.ok vs →
        (lapHasDrsActivation (some t) = true ↔
          ∃ v ∈ vs, sampleTriggers v = true)) := by
  refine ⟨rfl, ?_, ?_⟩
  · intro t h
    rw [hasChannel_eq_isSome] at h
    cases hg : getChannel t "DRS" with
    | none => simp [lapHasDrsActivation, hg]
    | some ch => rw [hg] at h; simp at h
  · intro t ch vs hg hn
    simp [lapHasDrsActivation, hg, hn, List.any_eq_true]

/-- Claim C3, witness: driver A's DRS trace `[0, 0, 15, 0]` has a sample
≥ 10 in third position, so `has_activation` is true. -/
theorem c3_witness : lapHasDrsActivation (some telemAct) = true :=
  (c3_theorem.2.2 telemAct
    (chanOf [Sample.num 0, Sample.num 0, Sample.num 15, Sample.num 0])
    [Sample.num 0, Sample.num 0, Sample.num 15, Sample.num 0] rfl rfl).mpr
    ⟨Sample.num 15, by decide, by decide⟩

/-- Claim C4: `has_activation` is a total function (the embedding returns a
`Bool` on every input, so no exception escapes); a decode failure of the
channel (`.to_numpy()` raising) degrades to false; and non-numeric samples
are skipped without aborting the scan — `["x", 12]` yields true and
`["x", "y"]` yields false. -/
theorem c4_theorem :
    (∀ t ch, getChannel t "DRS" = some ch →
      ch.to_numpy = Except.error () → lapHasDrsActivation (some t) = false)
    ∧ lapHasDrsActivation (some telemX12) = true
    ∧ lapHasDrsActivation (some telemXY) = false := by
  refine ⟨?_, by decide, by decide⟩
  intro t ch hg hn
  simp [lapHasDrsActivation, hg, hn]

/-- Claim C4, witness: a concrete DRS channel whose `.to_numpy()` raises
degrades to false. -/
theorem c4_witness : lapHasDrsActivation (some telemBad) = false :=
  c4_theorem.1 telemBad chanBad rfl rfl

/-- Claim C5: on a Race/Sprint run whose primary fastest lap's telemetry
shows activation, the selected layout is exactly that telemetry, its source
driver is the primary fastest lap's driver, fallback is not used, and no
qualifying load is attempted. -/
theorem c5_theorem (env : Env) (y r : Int) (st : SessType)
    (hst : st = SessType.R ∨ st = SessType.S)
    (s : Session) (hs : env.primarySession = Except.ok s)
    (fl : Lap) (hf : s.pick_fastest = some fl)
    (t0 : Option Telemetry) (ht : fl.get_telemetry = Except.ok t0)
    (hact : lapHasDrsActivation t0 = true) :
    (runMain env y r st).1 =
      MainResult.raceBundle env.raceTelemetry t0 fl.driver false
        (mkSessionInfo y r s.event env.raceTelemetry t0)
    ∧ Ev.qualiLoadAttempted ∉ (runMain env y r st).2 := by
  have h := runMain_race env y r st hst s hs fl hf t0 ht
  have hsel := selectLayout_of_activation env fl t0 hact
  rw [h, hsel]
  exact ⟨rfl, by simp⟩

/-- Claim C5, witness: the end-to-end scenario — driver VER's fastest lap
has DRS samples `[0, 0, 15, 0]`, so the layout is that lap, no fallback. -/
theorem c5_witness :
    (runMain envAct 2025 12 SessType.R).1 =
      MainResult.raceBundle envAct.raceTelemetry (some telemAct) lapAct.driver
        false (mkSessionInfo 2025 12 sessAct.event envAct.raceTelemetry
          (some telemAct))
    ∧ Ev.qualiLoadAttempted ∉ (runMain envAct 2025 12 SessType.R).2 :=
  c5_theorem envAct 2025 12 SessType.R (Or.inl rfl) sessAct rfl lapAct rfl
    (some telemAct) rfl (by decide)

/-- Claim C6: on a Race/Sprint run whose primary fastest lap lacks
activation, if the qualifying session loads as a non-`None` session with at
least one lap, has a fastest lap, and that lap's telemetry materializes and
shows activation, then the selected layout is the qualifying fastest lap's
telemetry, its source driver is the qualifying fastest lap's driver, and
fallback is marked used. -/
theorem c6_theorem (env : Env) (y r : Int) (st : SessType)
    (hst : st = SessType.R ∨ st = SessType.S)
    (s : Session) (hs : env.primarySession = Except.ok s)
    (fl : Lap) (hf : s.pick_fastest = some fl)
    (t0 : Option Telemetry) (ht : fl.get_telemetry = Except.ok t0)
    (hact : lapHasDrsActivation t0 = false)
    (qs : Session) (hq : env.qualiSession = Except.ok (some qs))
    (hlaps : qs.laps.length > 0)
    (fq : Lap) (hfq : qs.pick_fastest = some fq)
    (qt : Option Telemetry) (hqt : fq.get_telemetry = Except.ok qt)
    (hqact : lapHasDrsActivation qt = true) :
    (runMain env y r st).1 =
      MainResult.raceBundle env.raceTelemetry qt fq.driver true
        (mkSessionInfo y r s.event env.raceTelemetry qt) := by
  have h := runMain_race env y r st hst s hs fl hf t0 ht
  have hsel := selectLayout_adopt env fl t0 hact qs hq hlaps fq hfq qt hqt hqact
  rw [h, hsel]

/-- Claim C6, witness: primary DRS `[0,0,0,0]`, qualifying fastest lap (LEC)
DRS `[0,14,0]` — the layout becomes the qualifying telemetry with fallback
marked used. -/
theorem c6_witness :
    (runMain envFallback 2025 12 SessType.R).1 =
      MainResult.raceBundle envFallback.raceTelemetry (some telemQualiAct)
        lapQualiAct.driver true
        (mkSessionInfo 2025 12 sessFlat.event envFallback.raceTelemetry
          (some telemQualiAct)) :=
  c6_theorem envFallback 2025 12 SessType.R (Or.inl rfl) sessFlat rfl
    lapFlat rfl (some telemFlat) rfl (by decide) sessQualiAct rfl (by decide)
    lapQualiAct rfl (some telemQualiAct) rfl (by decide)

/-- Claim C7: on a Race/Sprint run whose primary fastest lap lacks
activation, when the qualifying fallback yields no improvement — the load
raises, or yields `None`, or the qualifying session has no laps, or no
fastest lap, or its telemetry raises, or its telemetry also lacks
activation — the layout stays the primary fastest lap's telemetry and
fallback is not marked used. -/
theorem c7_theorem (env : Env) (y r : Int) (st : SessType)
    (hst : st = SessType.R ∨ st = SessType.S)
    (s : Session) (hs : env.primarySession = Except.ok s)
    (fl : Lap) (hf : s.pick_fastest = some fl)
    (t0 : Option Telemetry) (ht : fl.get_telemetry = Except.ok t0)
    (hact : lapHasDrsActivation t0 = false)
    (hfb : env.qualiSession = Except.error () ∨
      env.qualiSession = Except.ok none ∨
      (∃ qs, env.qualiSession = Except.ok (some qs) ∧ ¬ qs.laps.length > 0) ∨
      (∃ qs, env.qualiSession = Except.ok (some qs) ∧ qs.pick_fastest = none) ∨
      (∃ qs fq, env.qualiSession = Except.ok (some qs) ∧
        qs.pick_fastest = some fq ∧ fq.get_telemetry = Except.error ()) ∨
      (∃ qs fq qt, env.qualiSession = Except.ok (some qs) ∧
        qs.pick_fastest = some fq ∧ fq.get_telemetry = Except.ok qt ∧
        lapHasDrsActivation qt = false)) :
    (runMain env y r st).1 =
      MainResult.raceBundle env.raceTelemetry t0 fl.driver false
        (mkSessionInfo y r s.event env.raceTelemetry t0) := by
  have h := runMain_race env y r st hst s hs fl hf t0 ht
  have hsel := selectLayout_keep env fl t0 hact hfb
  rw [h, hsel]

/-- Claim C7, witness: the end-to-end scenario — primary DRS `[0,0,0,0]`,
qualifying fastest lap DRS `[0,9,0]` all below threshold, so the layout
remains the race lap and fallback is not marked used. -/
theorem c7_witness :
    (runMain envQualiLow 2025 12 SessType.R).1 =
      MainResult.raceBundle envQualiLow.raceTelemetry (some telemFlat)
        lapFlat.driver false
        (mkSessionInfo 2025 12 sessFlat.event envQualiLow.raceTelemetry
          (some telemFlat)) :=
  c7_theorem envQualiLow 2025 12 SessType.R (Or.inl rfl) sessFlat rfl
    lapFlat rfl (some telemFlat) rfl (by decide)
    (Or.inr (Or.inr (Or.inr (Or.inr (Or.inr
      ⟨sessQualiLow, lapQualiLow, some telemQualiLow, rfl, rfl, rfl,
        by decide⟩)))))

/-- Claim C8: an exception raised during the qualifying fallback attempt
(the secondary `load_session` raising, or the qualifying lap's
`get_telemetry` raising) is caught and never propagated: the run does not
end in `raised`, the original race lap stays the layout, and fallback is
not marked used. -/
theorem c8_theorem (env : Env) (y r : Int) (st : SessType)
    (hst : st = SessType.R ∨ st = SessType.S)
    (s : Session) (hs : env.primarySession = Except.ok s)
    (fl : Lap) (hf : s.pick_fastest = some fl)
    (t0 : Option Telemetry) (ht : fl.get_telemetry = Except.ok t0)
    (hact : lapHasDrsActivation t0 = false)
    (herr : env.qualiSession = Except.error () ∨
      (∃ qs fq, env.qualiSession = Except.ok (some qs) ∧
        qs.pick_fastest = some fq ∧ fq.get_telemetry = Except.error ())) :
    (runMain env y r st).1 =
      MainResult.raceBundle env.raceTelemetry t0 fl.driver false
        (mkSessionInfo y r s.event env.raceTelemetry t0)
    ∧ (runMain env y r st).1 ≠ MainResult.raised := by
  have hfb : env.qualiSession = Except.error () ∨
      env.qualiSession = Except.ok none ∨
      (∃ qs, env.qualiSession = Except.ok (some qs) ∧ ¬ qs.laps.length > 0) ∨
      (∃ qs, env.qualiSession = Except.ok (some qs) ∧ qs.pick_fastest = none) ∨
      (∃ qs fq, env.qualiSession = Except.ok (some qs) ∧
        qs.pick_fastest = some fq ∧ fq.get_telemetry = Except.error ()) ∨
      (∃ qs fq qt, env.qualiSession = Except.ok (some qs) ∧
        qs.pick_fastest = some fq ∧ fq.get_telemetry = Except.ok qt ∧
        lapHasDrsActivation qt = false) := by
    rcases herr with h1 | ⟨qs, fq, h1, h2, h3⟩
    · exact Or.inl h1
    · exact Or.inr (Or.inr (Or.inr (Or.inr (Or.inl ⟨qs, fq, h1, h2, h3⟩))))
  have h := runMain_race env y r st hst s hs fl hf t0 ht
  have hsel := selectLayout_keep env fl t0 hact hfb
  rw [h, hsel]
  exact ⟨rfl, fun hcon => MainResult.noConfusion hcon⟩

/-- Claim C8, witness: primary lap without activation and a qualifying load
that raises — the run completes with the race lap as layout. -/
theorem c8_witness :
    (runMain envQualiErr 2025 12 SessType.R).1 =
      MainResult.raceBundle envQualiErr.raceTelemetry (some telemFlat)
        lapFlat.driver false
        (mkSessionInfo 2025 12 sessFlat.event envQualiErr.raceTelemetry
          (some telemFlat))
    ∧ (runMain envQualiErr 2025 12 SessType.R).1 ≠ MainResult.raised :=
  c8_theorem envQualiErr 2025 12 SessType.R (Or.inl rfl) sessFlat rfl
    lapFlat rfl (some telemFlat) rfl (by decide) (Or.inl rfl)

/-- Claim C9: every telemetry channel access is guarded by a presence
probe. The literally embedded probe-then-index forms (`Except`-valued, in
which an unguarded access to a missing channel would surface as `.error`)
never produce an error on any input and agree with the total embeddings;
and the circuit length is `None` exactly when the layout telemetry is
absent or lacks a `"Distance"` channel, and is computed from that channel
when present. -/
theorem c9_theorem (lap : Option Telemetry) :
    lapHasDrsActivationChecked lap = Except.ok (lapHasDrsActivation lap)
    ∧ circuitLengthChecked lap = Except.ok (circuitLengthM lap)
    ∧ circuitLengthM none = none
    ∧ (∀ t, lap = some t → hasChannel t "Distance" = false →
        circuitLengthM lap = none)
    ∧ (∀ t ch, lap = some t → getChannel t "Distance" = some ch →
        circuitLengthM lap = some (seriesFloatMax ch)) := by
  refine ⟨lapHasDrsActivationChecked_eq lap, circuitLengthChecked_eq lap,
    rfl, ?_, ?_⟩
  · intro t hl hch
    subst hl
    rw [hasChannel_eq_isSome] at hch
    cases hg : getChannel t "Distance" with
    | none => simp [circuitLengthM, hg]
    | some ch => rw [hg] at hch; simp at hch
  · intro t ch hl hg
    subst hl
    simp [circuitLengthM, hg]

/-- Claim C9, witness: telemetry without a Distance channel yields a `None`
circuit length, and one with a Distance channel yields its maximum. -/
theorem c9_witness :
    circuitLengthM (some telemFlat) = none
    ∧ circuitLengthM (some telemAct) =
        some (seriesFloatMax (chanOf [Sample.num 1200, Sample.num 4800])) :=
  ⟨(c9_theorem (some telemFlat)).2.2.2.1 telemFlat rfl (by decide),
   (c9_theorem (some telemAct)).2.2.2.2 telemAct
     (chanOf [Sample.num 1200, Sample.num 4800]) rfl rfl⟩

/-- Claim C10: invariant of the layout selection — on a Race/Sprint run
ending in a race bundle, whenever the final layout telemetry differs from
the primary fastest lap's telemetry, `has_activation` holds of the final
layout (the qualifying lap is adopted only under activation). -/
theorem c10_theorem (env : Env) (y r : Int) (st : SessType)
    (hst : st = SessType.R ∨ st = SessType.S)
    (s : Session) (hs : env.primarySession = Except.ok s)
    (fl : Lap) (hf : s.pick_fastest = some fl)
    (t0 : Option Telemetry) (ht : fl.get_telemetry = Except.ok t0)
    (race : RaceTelemetry) (layout : Option Telemetry) (drv : String)
    (fb : Bool) (info : SessionInfo)
    (hrun : (runMain env y r st).1 =
      MainResult.raceBundle race layout drv fb info)
    (hne : layout ≠ t0) :
    lapHasDrsActivation layout = true := by
  have h := runMain_race env y r st hst s hs fl hf t0 ht
  have hrun' : MainResult.raceBundle env.raceTelemetry
      (selectLayout env fl t0).example_lap
      (selectLayout env fl t0).layoutDriver
      (selectLayout env fl t0).fallback_used
      (mkSessionInfo y r s.event env.raceTelemetry
        (selectLayout env fl t0).example_lap) =
      MainResult.raceBundle race layout drv fb info := by
    rw [h] at hrun
    exact hrun
  injection hrun' with h1 h2 h3 h4 h5
  rcases selectLayout_spec env fl t0 with hkeep | ⟨hact, hfb⟩
  · rw [h2] at hkeep
    exact absurd hkeep hne
  · rw [h2] at hact
    exact hact

/-- Claim C10, witness: the fallback run adopts the qualifying telemetry,
which differs from the primary lap's, and activation indeed holds of it. -/
theorem c10_witness : lapHasDrsActivation (some telemQualiAct) = true :=
  c10_theorem envFallback 2025 12 SessType.R (Or.inl rfl) sessFlat rfl
    lapFlat rfl (some telemFlat) rfl envFallback.raceTelemetry
    (some telemQualiAct) "LEC" true
    (mkSessionInfo 2025 12 sessFlat.event envFallback.raceTelemetry
      (some telemQualiAct))
    (by decide) (by decide)

end F1Replay
